import Mathlib

/-!
Shallow embedding of the `video_encoder` pipeline (repository `encodingwf`)
and proofs about the claims of its specification.

Each definition carries a doc comment naming the Python source location it
embeds.  Machine integers are modelled as `Int` (Python ints are unbounded),
file sizes as `Int`, rational arithmetic (`ℚ`) replaces Python float division
where exact values are claimed, and fallible code returns `Except` /
`Option`.  Filesystem and subprocess effects are modelled by explicit state
passing and outcome oracles.
-/

namespace EncodingWF

/-! ## config.py -/

/-- `EncoderConfig.MIN_FILE_SIZE` (config.py line 25): 1 KB minimum. -/
def MIN_FILE_SIZE : Int := 1024

/-- `EncoderConfig.SUPPORTED_FORMATS` (config.py line 26). -/
def SUPPORTED_FORMATS : List String := ["mkv", "mp4"]

/-- `EncoderConfig.AUDIO_BITRATES` (config.py lines 35-40): the
channel-count → bitrate table, as an association list. -/
def AUDIO_BITRATES : List (Int × Int) := [(1, 64), (2, 128), (6, 256), (8, 384)]

/-- `EncoderConfig.get_audio_bitrate` (config.py lines 50-52):
`self.AUDIO_BITRATES.get(channels, channels * 48)`. -/
def get_audio_bitrate (channels : Int) : Int :=
  match AUDIO_BITRATES.lookup channels with
  | some b => b
  | none => channels * 48

/-! ## utils/exceptions.py

One constructor per exception class the claims touch.  `validationError`
carries the message (utils/exceptions.py line 19), `calledProcessError` the
return code and stderr of the failed process (the
`subprocess.CalledProcessError` of Python), `osError` a failure to even launch the
external binary (the `OSError` / `FileNotFoundError` of Python raised by
`subprocess.Popen` when the executable is absent from PATH). -/

inductive PyExc where
  | validationError (msg : String)
  | fileNotFoundError
  | fileSizeError
  | invalidVideoError
  | calledProcessError (returncode : Int) (stderr : String)
  | osError
  | segmentationError
  | cleanupError
  | videoEncoderError
  deriving DecidableEq

instance exceptDecEq {ε α : Type} [DecidableEq ε] [DecidableEq α] :
    DecidableEq (Except ε α) := fun x y =>
  match x, y with
  | Except.ok a, Except.ok b =>
    if h : a = b then isTrue (by rw [h])
    else isFalse (by intro hc; injection hc; contradiction)
  | Except.ok _, Except.error _ => isFalse (fun hc => Except.noConfusion hc)
  | Except.error _, Except.ok _ => isFalse (fun hc => Except.noConfusion hc)
  | Except.error a, Except.error b =>
    if h : a = b then isTrue (by rw [h])
    else isFalse (by intro hc; injection hc; contradiction)

/-! ## String helpers

Python compares and sorts `str`/`Path` values lexicographically by code
point, tests suffixes with `str.endswith` (used here to model
`Path.glob("*.ext")`), and tests substring membership with `in`.  These
helpers model those operations over the code-point sequence of a string,
written so that they evaluate by kernel reduction. -/

/-- The code-point sequence of a string. -/
def strKey (s : String) : List Nat := s.data.map (fun c => c.toNat)

/-- Lexicographic (code-point) order on code-point sequences, the order
Python uses to compare strings. -/
def lexLe : List Nat → List Nat → Bool
  | [], _ => true
  | _ :: _, [] => false
  | a :: as, b :: bs =>
    if a < b then true else if b < a then false else lexLe as bs

/-- Python `s <= t` on strings. -/
def strLe (s t : String) : Bool := lexLe (strKey s) (strKey t)

/-- Python string order as a `Prop` relation, for `List.Sorted`. -/
def fileLe (a b : String) : Prop := strLe a b = true

instance fileLe.decRel : DecidableRel fileLe := fun _ _ => decEq _ _

/-- Python `s.endswith(suffix)`; models `Path.glob` filename filtering. -/
def strEndsWith (s suffix : String) : Bool :=
  (strKey suffix).isSuffixOf (strKey s)

/-- `pat` occurs as a prefix of `l`. -/
def isPrefixList : List Nat → List Nat → Bool
  | [], _ => true
  | _ :: _, [] => false
  | a :: as, b :: bs => (a == b) && isPrefixList as bs

/-- `pat` occurs as a contiguous sublist of the second argument. -/
def containsKey (pat : List Nat) : List Nat → Bool
  | [] => pat.isEmpty
  | l@(_ :: rest) => isPrefixList pat l || containsKey pat rest

/-- Python `pat in s` (substring test), used by Dolby Vision detection. -/
def strContains (s pat : String) : Bool := containsKey (strKey pat) (strKey s)

theorem lexLe_cons_iff (x y : Nat) (xs ys : List Nat) :
    lexLe (x :: xs) (y :: ys) = true ↔ x < y ∨ (x = y ∧ lexLe xs ys = true) := by
  show (if x < y then true else if y < x then false else lexLe xs ys) = true ↔ _
  split_ifs with h1 h2
  · simp [h1]
  · have hne : x ≠ y := by omega
    simp [h1, hne]
  · have hxy : x = y := by omega
    simp [h1, hxy]

theorem lexLe_total : ∀ a b : List Nat, lexLe a b = true ∨ lexLe b a = true := by
  intro a
  induction a with
  | nil => intro b; left; rfl
  | cons x xs ih =>
    intro b
    cases b with
    | nil => right; rfl
    | cons y ys =>
      rcases Nat.lt_trichotomy x y with h | h | h
      · left; rw [lexLe_cons_iff]; exact Or.inl h
      · rcases ih ys with h2 | h2
        · left; rw [lexLe_cons_iff]; exact Or.inr ⟨h, h2⟩
        · right; rw [lexLe_cons_iff]; exact Or.inr ⟨h.symm, h2⟩
      · right; rw [lexLe_cons_iff]; exact Or.inl h

theorem lexLe_trans :
    ∀ a b c : List Nat, lexLe a b = true → lexLe b c = true → lexLe a c = true := by
  intro a
  induction a with
  | nil => intro b c _ _; rfl
  | cons x xs ih =>
    intro b c hab hbc
    cases b with
    | nil => simp [lexLe] at hab
    | cons y ys =>
      cases c with
      | nil => simp [lexLe] at hbc
      | cons z zs =>
        rw [lexLe_cons_iff] at hab hbc ⊢
        rcases hab with h1 | ⟨h1, h1r⟩ <;> rcases hbc with h2 | ⟨h2, h2r⟩
        · exact Or.inl (Nat.lt_trans h1 h2)
        · exact Or.inl (h2 ▸ h1)
        · exact Or.inl (h1 ▸ h2)
        · exact Or.inr ⟨h1.trans h2, ih ys zs h1r h2r⟩

instance fileLe.isTotal : IsTotal String fileLe :=
  ⟨fun a b => lexLe_total (strKey a) (strKey b)⟩

instance fileLe.isTrans : IsTrans String fileLe :=
  ⟨fun a b c => lexLe_trans (strKey a) (strKey b) (strKey c)⟩

/-! ## utils/validation.py -/

/-- One on-disk file as the validator observes it: its name, whether it is a
regular file, its size in bytes, and whether `ffprobe -v error` succeeds on
it. -/
structure VFile where
  name : String
  is_file : Bool
  size : Int
  probe_ok : Bool
  deriving DecidableEq

/-- `VideoValidator.validate_video_file` (validation.py lines 35-73):
existence check, then minimum-size check, then ffprobe validity check. -/
def validate_video_file (f : VFile) : Except PyExc Unit :=
  if !f.is_file then Except.error PyExc.fileNotFoundError
  else if f.size < MIN_FILE_SIZE then Except.error PyExc.fileSizeError
  else if !f.probe_ok then Except.error PyExc.invalidVideoError
  else Except.ok ()

/-- The count-failure message of validation.py lines 92-94. -/
def segCountMsg (expected found : Nat) : String :=
  "Expected at least " ++ toString expected ++ " segments, found " ++ toString found

/-- `VideoValidator.validate_segments` (validation.py lines 75-101): list the
`*.mkv` files of the directory (given here as its listing), fail with
`ValidationError` if fewer than `min_segments`, otherwise validate every
segment file (the thread pool surfaces per-file errors in input order, which
`mapM` mirrors). -/
def validate_segments (files : List VFile) (min_segments : Nat) : Except PyExc Unit :=
  let segments := files.filter (fun f => strEndsWith f.name ".mkv")
  if segments.length < min_segments then
    Except.error (PyExc.validationError (segCountMsg min_segments segments.length))
  else
    match segments.mapM validate_video_file with
    | Except.ok _ => Except.ok ()
    | Except.error e => Except.error e

/-- `VideoValidator.check_ffmpeg_installed` (validation.py lines 27-33): walk
the required tools in order and fail, naming the tool, at the first one
missing from PATH.  `tools` is the PATH oracle: which executables resolve. -/
def check_ffmpeg_installed (tools : String → Bool) : Except PyExc Unit :=
  ["ffmpeg", "ffprobe", "mediainfo"].forM fun tool =>
    if tools tool then Except.ok ()
    else Except.error (PyExc.validationError ("Required tool not found in PATH: " ++ tool))

/-! ## utils/subprocess.py and core/video.py -/

/-- The two ways an external invocation can go wrong, plus success:
the binary fails to launch (Python `OSError`/`FileNotFoundError` out of
`subprocess.Popen`, e.g. the tool is absent from PATH), or it runs and
terminates with an exit code and captured streams. -/
inductive ProbeResult where
  | launchFailure
  | finished (code : Int) (stdout : String) (stderr : String)
  deriving DecidableEq

/-- `run_command` (utils/subprocess.py lines 13-98) with `check=True`: a
launch failure propagates as `OSError`; a non-zero exit raises
`CalledProcessError`; otherwise the exit code and both streams are
returned. -/
def run_command (p : ProbeResult) : Except PyExc (Int × String × String) :=
  match p with
  | ProbeResult.launchFailure => Except.error PyExc.osError
  | ProbeResult.finished code out err =>
    if code ≠ 0 then Except.error (PyExc.calledProcessError code err)
    else Except.ok (code, out, err)

/-- `VideoProcessor.detect_dolby_vision` (video.py lines 33-67): run
mediainfo, scan stdout for the literal "Dolby Vision"; only
`subprocess.CalledProcessError` is caught (flag defaults to false); any
other exception — in particular a launch failure — propagates.  Returns the
`is_dolby_vision` flag on the non-raising paths. -/
def detect_dolby_vision (probe : ProbeResult) : Except PyExc Bool :=
  match run_command probe with
  | Except.ok (_, out, _) => Except.ok (strContains out "Dolby Vision")
  | Except.error (PyExc.calledProcessError _ _) => Except.ok false
  | Except.error e => Except.error e

/-- The order in which `VideoProcessor.encode_segments` (video.py line 208:
`sorted(segments_dir.glob("*.mkv"))`, with the glob pattern written here as a suffix test,) processes the segment files, given the
directory listing. -/
def encode_segments_order (segments_listing : List String) : List String :=
  List.insertionSort fileLe
    (segments_listing.filter (fun n => strEndsWith n ".mkv"))

/-- The order in which `VideoProcessor.concatenate_segments` (video.py line
259: `sorted(encoded_dir.glob("*.mkv"))`) lists the encoded segments in the
concat manifest, given the directory listing. -/
def concat_manifest_order (encoded_listing : List String) : List String :=
  List.insertionSort fileLe
    (encoded_listing.filter (fun n => strEndsWith n ".mkv"))

/-! ## core/audio.py -/

/-- One probed audio stream descriptor as `get_audio_info` returns it
(audio.py lines 30-71): the fields `encode_audio_tracks` reads, with
`none` for a descriptor that lacks the field. -/
structure AudioStream where
  channels : Option Int
  codec_name : Option String
  deriving DecidableEq

/-- The channel count read with default 2: `int(stream.get(..., 2))` on the
channels key (audio.py line 164). -/
def stream_channels (s : AudioStream) : Int := s.channels.getD 2

/-- The bitrates `AudioProcessor.encode_audio_tracks` (audio.py lines
163-173) passes to `encode_audio_track` (which takes the bitrate from
`get_audio_bitrate`, audio.py line 96), one per probed stream in stream
order. -/
def encode_audio_tracks_bitrates (streams : List AudioStream) : List Int :=
  streams.map (fun s => get_audio_bitrate (stream_channels s))

/-! ## core/encoder.py -/

/-- `ProcessingStats` (encoder.py lines 17-26).  Timestamps are rationals
(exact stand-ins for Python floats; no claim depends on float rounding),
sizes are integers. -/
structure ProcessingStats where
  filename : String
  start_time : ℚ
  end_time : Option ℚ
  input_size : Option Int
  output_size : Option Int
  segment_count : Option Nat
  audio_tracks : Option Nat
  deriving DecidableEq

/-- `ProcessingStats.compression_ratio` (encoder.py lines 35-40):
`if self.input_size and self.output_size: return input/output; return None`.
Python truthiness: `None` and `0` are both falsy, for either size. -/
def compression_ratio (s : ProcessingStats) : Option ℚ :=
  match s.input_size, s.output_size with
  | some i, some o =>
    if i ≠ 0 ∧ o ≠ 0 then some ((i : ℚ) / (o : ℚ)) else none
  | _, _ => none

/-- The three transient working directories; `none` means the directory does
not exist, `some l` that it exists and holds the files `l`. -/
structure FS where
  segments : Option (List String)
  encoded_segments : Option (List String)
  working : Option (List String)
  deriving DecidableEq

/-- All three transient directories exist and are empty. -/
def emptyTransientFS : FS := ⟨some [], some [], some []⟩

/-- The filesystem effect of one successful pass of
`VideoEncoder.cleanup_working_dirs` (encoder.py lines 75-84) over one
directory: delete it if present, then recreate it — it ends up empty. -/
def cleanup_dir_reset (_dir : Option (List String)) : Option (List String) :=
  some []

/-- `VideoEncoder.cleanup_working_dirs` (encoder.py lines 75-84), successful
case: each of segments, encoded_segments, working is deleted and
recreated. -/
def cleanup_working_dirs_result (fs : FS) : FS :=
  { segments := cleanup_dir_reset fs.segments,
    encoded_segments := cleanup_dir_reset fs.encoded_segments,
    working := cleanup_dir_reset fs.working }

/-- Oracle for one invocation of `cleanup_working_dirs`: either the
`shutil.rmtree`/`mkdir` calls all succeed, or one of them raises
(`ok = false`), leaving the filesystem in some state `fsAfterFail` and
raising `CleanupError` (encoder.py lines 83-84). -/
structure CleanupOutcome where
  ok : Bool
  fsAfterFail : FS

/-- Run one `cleanup_working_dirs` call under its outcome oracle: returns
the raised exception (if any) and the resulting filesystem. -/
def run_cleanup (c : CleanupOutcome) (fs : FS) : Option PyExc × FS :=
  if c.ok then (none, cleanup_working_dirs_result fs)
  else (some PyExc.cleanupError, c.fsAfterFail)

/-- The mutable logger context of `ContextLogger`
(utils/logging_config.py lines 69-86): the current-file tag, plus counters
for `logger.error` calls made from the job body and from the cleanup
swallow-branch (encoder.py lines 152 and 164). -/
structure LogState where
  current_file : Option String
  job_error_logs : Nat
  cleanup_error_logs : Nat
  deriving DecidableEq

/-- Oracle for one run of `process_video`: the outcome of the initial
cleanup, the behaviour of the pipeline stages (detect → segment → encode →
concatenate → audio → remux) as a state transformer on the transient
directories that may raise, and the outcome of the final cleanup. -/
structure JobEnv where
  cleanup1 : CleanupOutcome
  pipeline : FS → Option PyExc × FS
  cleanup2 : CleanupOutcome

/-- `VideoEncoder.process_video` (encoder.py lines 86-164): set the logger
current file; `try:` initial `cleanup_working_dirs`, then the pipeline
stages; `except:` log the error and re-raise; `finally:` clear the logger
current file and run `cleanup_working_dirs` again, logging — but
swallowing — any `CleanupError` it raises.  Returns the exception
propagating out of `process_video` (if any), the final filesystem, and the
final logger state. -/
def process_video (env : JobEnv) (fileName : String) (fs0 : FS) (lg0 : LogState) :
    Option PyExc × FS × LogState :=
  let lg1 : LogState := { lg0 with current_file := some fileName }
  let r1 := run_cleanup env.cleanup1 fs0
  let tryOut : Option PyExc × FS :=
    match r1.1 with
    | some e => (some e, r1.2)
    | none => env.pipeline r1.2
  let lgE : LogState :=
    match tryOut.1 with
    | some _ => { lg1 with job_error_logs := lg1.job_error_logs + 1 }
    | none => lg1
  let lg2 : LogState := { lgE with current_file := none }
  let r2 := run_cleanup env.cleanup2 tryOut.2
  let lg3 : LogState :=
    match r2.1 with
    | some _ => { lg2 with cleanup_error_logs := lg2.cleanup_error_logs + 1 }
    | none => lg2
  (tryOut.1, r2.2, lg3)

/-- `VideoEncoder.get_input_files` (encoder.py lines 62-73): glob the input
directory listing for each supported extension in order, fail if nothing
matched, else return the matches sorted. -/
def get_input_files (input_listing : List String) : Except PyExc (List String) :=
  let files := SUPPORTED_FORMATS.flatMap
    (fun fmt => input_listing.filter (fun n => strEndsWith n ("." ++ fmt)))
  if files.isEmpty then Except.error PyExc.videoEncoderError
  else Except.ok (List.insertionSort fileLe files)

/-- The per-file loop of `VideoEncoder.run` (encoder.py lines 214-221):
process each file in turn; a failure is logged (the file is recorded as
failed) and the loop continues with the next file.  Returns the files
attempted, in order, and the files that failed, in order. -/
def run_file_loop (outcome : String → Option PyExc) :
    List String → List String × List String
  | [] => ([], [])
  | f :: rest =>
    let r := run_file_loop outcome rest
    match outcome f with
    | none => (f :: r.1, r.2)
    | some _ => (f :: r.1, f :: r.2)

/-- Outcome oracle for one `VideoEncoder.run`: whether
`prepare_directories` succeeds, the input-directory listing, and the
outcome `process_video` would have on each input file. -/
structure RunEnv where
  prepare_ok : Bool
  input_listing : List String
  outcome : String → Option PyExc

/-- What one `VideoEncoder.run` did: the exception it re-raised (if any),
the files whose processing was started, the files whose processing failed,
and whether the summary was printed. -/
structure RunResult where
  error : Option PyExc
  attempted : List String
  failed : List String
  summary_printed : Bool
  deriving DecidableEq

/-- `VideoEncoder.run` (encoder.py lines 201-234): prepare directories,
discover input files, loop over them with per-file error containment, print
the summary; a fatal error (directory preparation, no input files) is
re-raised and the summary is not printed.  No tool check of any kind is
performed before the loop. -/
def run (env : RunEnv) : RunResult :=
  if !env.prepare_ok then
    { error := some PyExc.videoEncoderError, attempted := [], failed := [],
      summary_printed := false }
  else
    match get_input_files env.input_listing with
    | Except.error e =>
      { error := some e, attempted := [], failed := [], summary_printed := false }
    | Except.ok files =>
      let r := run_file_loop env.outcome files
      { error := none, attempted := r.1, failed := r.2, summary_printed := true }

/-! ## Concrete fixtures for witnesses -/

/-- A job whose segmentation stage fails (dropping a stray segment file into
the workspace) and whose two cleanup passes both succeed. -/
def segfailEnv : JobEnv :=
  ⟨⟨true, emptyTransientFS⟩,
   fun _ => (some PyExc.segmentationError, ⟨some ["0000.mkv"], some [], some []⟩),
   ⟨true, emptyTransientFS⟩⟩

/-- A job whose segmentation stage fails and whose final cleanup also
fails, leaving a stray file behind. -/
def cleanupFailEnv : JobEnv :=
  ⟨⟨true, emptyTransientFS⟩,
   fun _ => (some PyExc.segmentationError, ⟨some ["0000.mkv"], some [], some []⟩),
   ⟨false, ⟨some ["0000.mkv"], some [], some []⟩⟩⟩

/-- A batch of three inputs where processing of `b.mkv` raises. -/
def batchEnv : RunEnv :=
  ⟨true, ["b.mkv", "a.mkv", "c.mkv"],
   fun f => if f == "b.mkv" then some PyExc.segmentationError else none⟩

/-- PATH oracle with mediainfo absent. -/
def toolsNoMediainfo : String → Bool := fun t => !(t == "mediainfo")

/-- A batch over one input run with mediainfo absent from PATH: the first
external call of the job is the mediainfo probe, whose launch failure
(`OSError`) is not caught anywhere inside the job, so the job fails. -/
def missingToolBatchEnv : RunEnv := ⟨true, ["clip.mkv"], fun _ => some PyExc.osError⟩

/-- Stats record with a zero input size and a known non-zero output size. -/
def zeroInputStats : ProcessingStats := ⟨"clip", 0, none, some 0, some 500, none, none⟩

/-- Stats record matching the worked example of the spec (input 1000, output 500). -/
def exampleStats : ProcessingStats := ⟨"clip", 0, none, some 1000, some 500, none, none⟩

/-! ## Helper lemmas -/

theorem mapM_validate_ok :
    ∀ l : List VFile, (∀ f ∈ l, validate_video_file f = Except.ok ()) →
      l.mapM validate_video_file = Except.ok (l.map (fun _ => ())) := by
  intro l
  induction l with
  | nil => intro _; rfl
  | cons f fs ih =>
    intro h
    have hf := h f (List.mem_cons_self f fs)
    have hrest := ih (fun g hg => h g (List.mem_cons_of_mem f hg))
    simp only [List.mapM_cons, hf, hrest]
    rfl

theorem run_file_loop_spec (oc : String → Option PyExc) :
    ∀ files : List String,
      (run_file_loop oc files).1 = files ∧
      (run_file_loop oc files).2 = files.filter (fun f => (oc f).isSome) := by
  intro files
  induction files with
  | nil => exact ⟨rfl, rfl⟩
  | cons f fs ih =>
    unfold run_file_loop
    cases hf : oc f <;> simp [hf, ih.1, ih.2]

/-! ## Claim theorems -/

/-- C1: whatever the cleanup and pipeline stages do — success or exceptions
of any kind, in particular a failing segmentation step — `process_video`
clears the current-file context of the logger, and provided the directory
operations of the final guaranteed cleanup succeed, it leaves the three
transient directories existing and empty. -/
theorem process_video_resets_workspace
    (env : JobEnv) (fileName : String) (fs0 : FS) (lg0 : LogState)
    (h : env.cleanup2.ok = true) :
    (process_video env fileName fs0 lg0).2.1 = emptyTransientFS ∧
    (process_video env fileName fs0 lg0).2.2.current_file = none := by
  unfold process_video run_cleanup
  simp [h, cleanup_working_dirs_result, cleanup_dir_reset, emptyTransientFS]

/-- C1 witness: a job whose segmentation step fails still re-raises the
segmentation error, yet leaves the transient directories empty and the
logger context cleared. -/
theorem process_video_resets_workspace_witness :
    segfailEnv.cleanup2.ok = true ∧
    (process_video segfailEnv "clip.mkv" emptyTransientFS ⟨none, 0, 0⟩).1 =
      some PyExc.segmentationError ∧
    (process_video segfailEnv "clip.mkv" emptyTransientFS ⟨none, 0, 0⟩).2.1 =
      emptyTransientFS ∧
    (process_video segfailEnv "clip.mkv" emptyTransientFS ⟨none, 0, 0⟩).2.2.current_file =
      none :=
  ⟨rfl, rfl,
   (process_video_resets_workspace segfailEnv "clip.mkv" emptyTransientFS ⟨none, 0, 0⟩ rfl).1,
   (process_video_resets_workspace segfailEnv "clip.mkv" emptyTransientFS ⟨none, 0, 0⟩ rfl).2⟩

/-- C2: when the job body fails with exception `e` and the guaranteed final
cleanup then fails as well, the cleanup failure is only logged: the
exception propagating out of `process_video` is still `e`. -/
theorem process_video_preserves_job_error
    (env : JobEnv) (fileName : String) (fs0 : FS) (lg0 : LogState) (e : PyExc)
    (h1 : env.cleanup1.ok = true)
    (h2 : (env.pipeline (cleanup_working_dirs_result fs0)).1 = some e)
    (h3 : env.cleanup2.ok = false) :
    (process_video env fileName fs0 lg0).1 = some e ∧
    (process_video env fileName fs0 lg0).2.2.cleanup_error_logs =
      lg0.cleanup_error_logs + 1 := by
  unfold process_video run_cleanup
  simp [h1, h2, h3]

/-- C2 witness: segmentation fails, then the final cleanup fails too — the
propagated exception is the segmentation error, not the cleanup error, and
the cleanup error was logged once. -/
theorem process_video_preserves_job_error_witness :
    cleanupFailEnv.cleanup1.ok = true ∧
    cleanupFailEnv.cleanup2.ok = false ∧
    (process_video cleanupFailEnv "clip.mkv" emptyTransientFS ⟨none, 0, 0⟩).1 =
      some PyExc.segmentationError ∧
    (process_video cleanupFailEnv "clip.mkv" emptyTransientFS ⟨none, 0, 0⟩).2.2.cleanup_error_logs = 1 :=
  ⟨rfl, rfl,
   (process_video_preserves_job_error cleanupFailEnv "clip.mkv" emptyTransientFS
      ⟨none, 0, 0⟩ PyExc.segmentationError rfl rfl rfl).1,
   (process_video_preserves_job_error cleanupFailEnv "clip.mkv" emptyTransientFS
      ⟨none, 0, 0⟩ PyExc.segmentationError rfl rfl rfl).2⟩

/-- C3: once directory preparation and input discovery succeed, `run`
starts every discovered file in order no matter which files fail, records
exactly the failing files, prints the summary, and re-raises nothing — one
failure of one file never aborts the batch. -/
theorem run_batch_continues_after_failure
    (env : RunEnv) (files : List String)
    (hprep : env.prepare_ok = true)
    (hfiles : get_input_files env.input_listing = Except.ok files) :
    run env =
      { error := none, attempted := files,
        failed := files.filter (fun f => (env.outcome f).isSome),
        summary_printed := true } := by
  unfold run
  simp [hprep, hfiles, (run_file_loop_spec env.outcome files).1,
    (run_file_loop_spec env.outcome files).2]

/-- C3 witness: of three discovered files the middle one fails; all three
are still attempted, only the failing one is recorded, and the summary is
printed. -/
theorem run_batch_continues_after_failure_witness :
    batchEnv.prepare_ok = true ∧
    get_input_files batchEnv.input_listing = Except.ok ["a.mkv", "b.mkv", "c.mkv"] ∧
    run batchEnv =
      { error := none, attempted := ["a.mkv", "b.mkv", "c.mkv"],
        failed := ["b.mkv"], summary_printed := true } :=
  ⟨rfl, rfl,
   run_batch_continues_after_failure batchEnv ["a.mkv", "b.mkv", "c.mkv"] rfl rfl⟩

/-- C4: `get_audio_bitrate` returns the table value for channel counts
1, 2, 6, 8 and `channels * 48` for every other channel count. -/
theorem get_audio_bitrate_spec (c : Int) :
    get_audio_bitrate c =
      if c = 1 then 64 else if c = 2 then 128 else if c = 6 then 256
      else if c = 8 then 384 else c * 48 := by
  by_cases h1 : c = 1
  · subst h1; decide
  by_cases h2 : c = 2
  · subst h2; decide
  by_cases h3 : c = 6
  · subst h3; decide
  by_cases h4 : c = 8
  · subst h4; decide
  have e1 : ((c == (1 : Int)) = false) := by simp [h1]
  have e2 : ((c == (2 : Int)) = false) := by simp [h2]
  have e3 : ((c == (6 : Int)) = false) := by simp [h3]
  have e4 : ((c == (8 : Int)) = false) := by simp [h4]
  simp [get_audio_bitrate, AUDIO_BITRATES, List.lookup, e1, e2, e3, e4, h1, h2, h3, h4]

/-- C5 counterexample: a record with a known, non-zero output size (500)
but input size 0 — the claim says the ratio is computed and equals
`input/output`, the code returns `None`.  (Python truthiness makes an
input size of `None` or `0` suppress the ratio as well.) -/
theorem compression_ratio_output_only_false :
    zeroInputStats.input_size = some 0 ∧
    zeroInputStats.output_size = some 500 ∧
    compression_ratio zeroInputStats = none ∧
    compression_ratio zeroInputStats ≠ some ((0 : ℚ) / (500 : ℚ)) := by
  refine ⟨rfl, rfl, by decide, ?_⟩
  intro hc
  rw [show compression_ratio zeroInputStats = none from by decide] at hc
  exact Option.noConfusion hc

/-- C5 (amended): `compression_ratio` is `None` exactly when the input
size or the output size is unknown (`None`) or zero, and equals
`input_size / output_size` otherwise. -/
theorem compression_ratio_spec (s : ProcessingStats) :
    (compression_ratio s = none ↔
      s.input_size = none ∨ s.input_size = some 0 ∨
      s.output_size = none ∨ s.output_size = some 0) ∧
    (∀ i o : Int, s.input_size = some i → s.output_size = some o →
      i ≠ 0 → o ≠ 0 → compression_ratio s = some ((i : ℚ) / (o : ℚ))) := by
  constructor
  · rcases hin : s.input_size with _ | i <;> rcases hout : s.output_size with _ | o <;>
      simp [compression_ratio, hin, hout]
    by_cases hi : i = 0 <;> simp [hi]
  · intro i o hi ho hi0 ho0
    simp [compression_ratio, hi, ho, hi0, ho0]

/-- C5 witness: the worked example of the spec — input 1000, output 500 gives
ratio `1000/500 = 2`. -/
theorem compression_ratio_spec_witness :
    exampleStats.input_size = some 1000 ∧
    exampleStats.output_size = some 500 ∧
    compression_ratio exampleStats = some ((1000 : ℚ) / (500 : ℚ)) ∧
    ((1000 : ℚ) / (500 : ℚ)) = 2 :=
  ⟨rfl, rfl,
   (compression_ratio_spec exampleStats).2 1000 500 rfl rfl
     (by decide) (by decide),
   by norm_num⟩

/-- C6: `validate_segments` fails with the count `ValidationError` whenever
the directory holds fewer matching `*.mkv` files than `min_segments` — for
arbitrary files, so in particular even when every present file is
individually valid — and only once the count check passes does per-file
validation decide the result (all files valid ⟹ success). -/
theorem validate_segments_count_gate :
    (∀ (files : List VFile) (min_segments : Nat),
        (files.filter (fun f => strEndsWith f.name ".mkv")).length < min_segments →
        validate_segments files min_segments =
          Except.error (PyExc.validationError
            (segCountMsg min_segments
              (files.filter (fun f => strEndsWith f.name ".mkv")).length))) ∧
    (∀ (files : List VFile) (min_segments : Nat),
        min_segments ≤ (files.filter (fun f => strEndsWith f.name ".mkv")).length →
        (∀ f ∈ files.filter (fun f => strEndsWith f.name ".mkv"),
          validate_video_file f = Except.ok ()) →
        validate_segments files min_segments = Except.ok ()) := by
  constructor
  · intro files n h
    simp [validate_segments, h]
  · intro files n hlen hall
    have hnc : ¬ (files.filter (fun f => strEndsWith f.name ".mkv")).length < n :=
      not_lt.mpr hlen
    simp only [validate_segments]
    rw [if_neg hnc, mapM_validate_ok _ hall]

/-- C6 witness: a directory with one individually valid segment file fails
the `min_count = 2` check with the count ValidationError. -/
theorem validate_segments_count_gate_witness :
    validate_video_file ⟨"a.mkv", true, 2048, true⟩ = Except.ok () ∧
    validate_segments [⟨"a.mkv", true, 2048, true⟩] 2 =
      Except.error (PyExc.validationError (segCountMsg 2 1)) :=
  ⟨rfl, validate_segments_count_gate.1 [⟨"a.mkv", true, 2048, true⟩] 2 (by decide)⟩

/-- C7: the code at the failing input — with mediainfo absent from PATH,
`check_ffmpeg_installed` would raise the ValidationError naming mediainfo,
but `run` never calls it: the batch starts its (only) job, which fails at
the Dolby Vision probe with an uncaught launch error; the loop logs the
failure, continues, prints the summary and re-raises nothing. -/
theorem missing_tool_reaches_jobs :
    check_ffmpeg_installed toolsNoMediainfo =
      Except.error (PyExc.validationError "Required tool not found in PATH: mediainfo") ∧
    detect_dolby_vision ProbeResult.launchFailure = Except.error PyExc.osError ∧
    run missingToolBatchEnv =
      { error := none, attempted := ["clip.mkv"], failed := ["clip.mkv"],
        summary_printed := true } :=
  ⟨rfl, rfl, rfl⟩

/-- C8: for any directory listings, the order in which `encode_segments`
processes segment files and the order in which `concatenate_segments`
lists encoded segments in the concat manifest are both ascending in the
lexicographic (code-point) filename order, and each is a permutation of
exactly the `*.mkv` files present. -/
theorem segment_processing_sorted (segs encs : List String) :
    List.Sorted fileLe (encode_segments_order segs) ∧
    (encode_segments_order segs).Perm
      (segs.filter (fun n => strEndsWith n ".mkv")) ∧
    List.Sorted fileLe (concat_manifest_order encs) ∧
    (concat_manifest_order encs).Perm
      (encs.filter (fun n => strEndsWith n ".mkv")) :=
  ⟨List.sorted_insertionSort fileLe _, List.perm_insertionSort fileLe _,
   List.sorted_insertionSort fileLe _, List.perm_insertionSort fileLe _⟩

/-- C9 counterexample: a probe failure that does abort the job — when the
prober cannot be launched at all (`OSError`, e.g. mediainfo absent),
`detect_dolby_vision` does not catch the failure and re-raises instead of
defaulting the flag to false. -/
theorem detect_dolby_vision_launch_failure_aborts :
    detect_dolby_vision ProbeResult.launchFailure = Except.error PyExc.osError ∧
    detect_dolby_vision ProbeResult.launchFailure ≠ Except.ok false ∧
    detect_dolby_vision ProbeResult.launchFailure ≠ Except.ok true := by
  refine ⟨rfl, ?_, ?_⟩ <;> intro hc <;> exact Except.noConfusion hc

/-- C9 (amended): when the mediainfo probe runs and exits non-zero
(`subprocess.CalledProcessError`), `detect_dolby_vision` catches the
failure and returns with the flag defaulted to false — such probe process
failures never abort the job. -/
theorem detect_dolby_vision_process_failure_nonfatal
    (code : Int) (out err : String) (h : code ≠ 0) :
    detect_dolby_vision (ProbeResult.finished code out err) = Except.ok false := by
  simp [detect_dolby_vision, run_command, h]

/-- C9 witness: a probe exiting with status 1 yields the flag false and no
exception. -/
theorem detect_dolby_vision_process_failure_nonfatal_witness :
    (1 : Int) ≠ 0 ∧
    detect_dolby_vision (ProbeResult.finished 1 "" "mediainfo: cannot open") =
      Except.ok false :=
  ⟨by decide,
   detect_dolby_vision_process_failure_nonfatal 1 "" "mediainfo: cannot open" (by decide)⟩

/-- C10: a probed audio stream whose descriptor lacks the channel-count
field is encoded as if it had 2 channels, so its bitrate is the stereo
table value 128. -/
theorem missing_channels_encoded_stereo
    (streams : List AudioStream) (i : Nat) (s : AudioStream)
    (hget : streams[i]? = some s) (hch : s.channels = none) :
    (encode_audio_tracks_bitrates streams)[i]? = some 128 := by
  unfold encode_audio_tracks_bitrates
  rw [List.getElem?_map, hget]
  simp [stream_channels, hch]
  decide

/-- C10 witness: a single stream with no channel field gets bitrate 128. -/
theorem missing_channels_encoded_stereo_witness :
    ([(⟨none, none⟩ : AudioStream)])[0]? = some (⟨none, none⟩ : AudioStream) ∧
    (⟨none, none⟩ : AudioStream).channels = none ∧
    (encode_audio_tracks_bitrates [⟨none, none⟩])[0]? = some 128 :=
  ⟨rfl, rfl, missing_channels_encoded_stereo [⟨none, none⟩] 0 ⟨none, none⟩ rfl rfl⟩

end EncodingWF
